import Mathlib

/-!
Verification of the frame-rendering core of the sph-vulkan repository.

The definitions below are a shallow embedding of the Rust sources:
`src/app.rs` (the frame loop and swapchain recreation), `src/utils.rs`
(swapchain format selection, memory-type selection, staged buffer
uploads, image layout transitions) and `src/model.rs` (vertex
equality, hashing and model loading).  Vulkan bit flags are embedded
as natural-number bitmasks with their actual Vulkan values; f32
values are embedded as their 32-bit IEEE-754 bit patterns.
-/

namespace SphVulkan

/-- Bitmask containment test, embedding the vulkanalia
`Flags::contains` operation: every bit of `props` is set in `flags`. -/
def containsFlags (flags props : Nat) : Bool :=
  flags &&& props == props

/-! Memory property flag values from the Vulkan headers. -/

def DEVICE_LOCAL : Nat := 1
def HOST_VISIBLE : Nat := 2
def HOST_COHERENT : Nat := 4

/-! Buffer usage flag values from the Vulkan headers. -/

def TRANSFER_SRC : Nat := 1
def TRANSFER_DST : Nat := 2
def UNIFORM_BUFFER : Nat := 16
def INDEX_BUFFER : Nat := 64
def VERTEX_BUFFER : Nat := 128

/-- Embedding of `get_memory_type_index` from `src/utils.rs`.  The
available memory types are given as the list of their property-flag
masks (the `memory_types` array up to `memory_type_count`); the Rust
code iterates `(0..memory.memory_type_count).find(..)`, testing that
bit `i` of the memory requirements bitmask is set and that the
declared property flags contain the requested ones. -/
def get_memory_type_index (memory_types : List Nat)
    (properties memory_type_bits : Nat) : Option Nat :=
  (List.range memory_types.length).find? fun i =>
    ((memory_type_bits &&& (1 <<< i)) != 0)
      && containsFlags (memory_types.getD i 0) properties

/-! Surface format selection. -/

/-- Pixel formats appearing in the repository (a fragment of the
Vulkan `Format` enum, including the depth-format candidate list of
`get_depth_format` and the stencil-bearing formats). -/
inductive Format where
  | UNDEFINED
  | B8G8R8A8_SRGB
  | B8G8R8A8_UNORM
  | R8G8B8A8_SRGB
  | R8G8B8A8_UNORM
  | D16_UNORM
  | D32_SFLOAT
  | S8_UINT
  | D16_UNORM_S8_UINT
  | D24_UNORM_S8_UINT
  | D32_SFLOAT_S8_UINT
  deriving DecidableEq, Repr

/-- Color spaces appearing in the repository (a fragment of the
Vulkan `ColorSpaceKHR` enum). -/
inductive ColorSpaceKHR where
  | SRGB_NONLINEAR
  | DISPLAY_P3_NONLINEAR
  | HDR10_ST2084
  deriving DecidableEq, Repr

/-- Embedding of the vulkanalia `SurfaceFormatKHR` pair. -/
structure SurfaceFormatKHR where
  format : Format
  color_space : ColorSpaceKHR
  deriving DecidableEq, Repr

/-- The format/color-space pair preferred by the swapchain code. -/
def preferredSurfaceFormat : SurfaceFormatKHR :=
  { format := Format.B8G8R8A8_SRGB, color_space := ColorSpaceKHR.SRGB_NONLINEAR }

/-- Embedding of `get_swapchain_surface_format` from `src/utils.rs`:
search the candidate list for the B8G8R8A8_SRGB / SRGB_NONLINEAR
pair, falling back to the first entry.  The Rust fallback indexes
`formats[0]`, which aborts on an empty list; the embedding returns
`none` there. -/
def get_swapchain_surface_format (formats : List SurfaceFormatKHR) :
    Option SurfaceFormatKHR :=
  match formats.find? fun fmt =>
      fmt.format == Format.B8G8R8A8_SRGB
        && fmt.color_space == ColorSpaceKHR.SRGB_NONLINEAR with
  | some fmt => some fmt
  | none => formats.head?

/-! Image layout transitions. -/

/-- Image layouts appearing in `transition_image_layout` (a fragment
of the Vulkan `ImageLayout` enum). -/
inductive ImageLayout where
  | UNDEFINED
  | GENERAL
  | TRANSFER_DST_OPTIMAL
  | SHADER_READ_ONLY_OPTIMAL
  | DEPTH_STENCIL_ATTACHMENT_OPTIMAL
  | COLOR_ATTACHMENT_OPTIMAL
  | PRESENT_SRC_KHR
  deriving DecidableEq, Repr

/-! Access flag values from the Vulkan headers. -/

def SHADER_READ : Nat := 32
def DEPTH_STENCIL_ATTACHMENT_READ : Nat := 512
def DEPTH_STENCIL_ATTACHMENT_WRITE : Nat := 1024
def TRANSFER_WRITE : Nat := 4096

/-! Pipeline stage flag values from the Vulkan headers. -/

def TOP_OF_PIPE : Nat := 1
def FRAGMENT_SHADER : Nat := 128
def EARLY_FRAGMENT_TESTS : Nat := 256
def TRANSFER : Nat := 4096

/-! Image aspect flag values from the Vulkan headers. -/

def ASPECT_COLOR : Nat := 1
def ASPECT_DEPTH : Nat := 2
def ASPECT_STENCIL : Nat := 4

/-- The pipeline barrier recorded by `transition_image_layout`: the
source/destination access masks, the source/destination pipeline
stage masks, and the aspect mask of the subresource range. -/
structure BarrierInfo where
  src_access_mask : Nat
  dst_access_mask : Nat
  src_stage_mask : Nat
  dst_stage_mask : Nat
  aspect_mask : Nat
  deriving DecidableEq, Repr

/-- Embedding of `transition_image_layout` from `src/utils.rs`.  The
Rust function first matches on the `(old_layout, new_layout)` pair,
returning the error before any command buffer is begun or any barrier
is recorded when the pair is not one of the three supported ones;
then it picks the aspect mask (depth + stencil for the two listed
formats when the new layout is the depth-stencil-attachment layout,
color otherwise) and records the barrier.  The returned `BarrierInfo`
describes the single recorded barrier. -/
def transition_image_layout (format : Format)
    (old_layout new_layout : ImageLayout) : Except String BarrierInfo :=
  match old_layout, new_layout with
  | ImageLayout.UNDEFINED, ImageLayout.TRANSFER_DST_OPTIMAL =>
      Except.ok
        { src_access_mask := 0
          dst_access_mask := TRANSFER_WRITE
          src_stage_mask := TOP_OF_PIPE
          dst_stage_mask := TRANSFER
          aspect_mask := aspectMaskFor format new_layout }
  | ImageLayout.TRANSFER_DST_OPTIMAL, ImageLayout.SHADER_READ_ONLY_OPTIMAL =>
      Except.ok
        { src_access_mask := TRANSFER_WRITE
          dst_access_mask := SHADER_READ
          src_stage_mask := TRANSFER
          dst_stage_mask := FRAGMENT_SHADER
          aspect_mask := aspectMaskFor format new_layout }
  | ImageLayout.UNDEFINED, ImageLayout.DEPTH_STENCIL_ATTACHMENT_OPTIMAL =>
      Except.ok
        { src_access_mask := 0
          dst_access_mask :=
            DEPTH_STENCIL_ATTACHMENT_READ ||| DEPTH_STENCIL_ATTACHMENT_WRITE
          src_stage_mask := TOP_OF_PIPE
          dst_stage_mask := EARLY_FRAGMENT_TESTS
          aspect_mask := aspectMaskFor format new_layout }
  | _, _ => Except.error "Unsupported image layout transition!"
where
  /-- The aspect-mask computation of `transition_image_layout`. -/
  aspectMaskFor (format : Format) (new_layout : ImageLayout) : Nat :=
    if new_layout = ImageLayout.DEPTH_STENCIL_ATTACHMENT_OPTIMAL then
      match format with
      | Format.D32_SFLOAT_S8_UINT | Format.D24_UNORM_S8_UINT =>
          ASPECT_DEPTH ||| ASPECT_STENCIL
      | _ => ASPECT_COLOR
    else
      ASPECT_COLOR

/-- Whether a Vulkan format includes a stencil component, per the
Vulkan format definitions.  This formalizes the phrase of the spec
"formats that include a stencil component"; it is the spec-side
notion against which the aspect-mask choice of the code is compared. -/
def hasStencilComponent : Format → Bool
  | Format.S8_UINT => true
  | Format.D16_UNORM_S8_UINT => true
  | Format.D24_UNORM_S8_UINT => true
  | Format.D32_SFLOAT_S8_UINT => true
  | _ => false

/-! Vertex equality and hashing. -/

/-- A three-component f32 vector (`glm::Vec3`), each component held
as its 32-bit IEEE-754 bit pattern. -/
structure Vec3Bits where
  x : Nat
  y : Nat
  z : Nat
  deriving DecidableEq, Repr

/-- Whether a 32-bit IEEE-754 bit pattern denotes a NaN: exponent
bits all ones and a nonzero mantissa. -/
def f32IsNaN (a : Nat) : Bool :=
  ((a >>> 23) &&& 255 == 255) && (a &&& 8388607 != 0)

/-- IEEE-754 equality of two binary32 values given by bit pattern:
NaN compares unequal to everything, positive and negative zero
compare equal, and otherwise equality is bit equality.  This is the
semantics of the Rust `f32` operator `==` used by the `PartialEq`
implementations of `glm::Vec3`. -/
def f32Eq (a b : Nat) : Bool :=
  if f32IsNaN a || f32IsNaN b then false
  else if a == b then true
  else (a &&& 2147483647 == 0) && (b &&& 2147483647 == 0)

/-- Component-wise f32 equality of two `glm::Vec3` values. -/
def vec3Eq (a b : Vec3Bits) : Bool :=
  f32Eq a.x b.x && f32Eq a.y b.y && f32Eq a.z b.z

/-- Embedding of the `Vertex` struct of `src/model.rs`: position,
color and normal, each a `glm::Vec3`. -/
structure Vertex where
  pos : Vec3Bits
  color : Vec3Bits
  normal : Vec3Bits
  deriving DecidableEq, Repr

/-- Embedding of `impl PartialEq for Vertex` in `src/model.rs`: the
implementation compares `pos` and `color` only (the `normal` field is
not compared). -/
def Vertex.rustEq (a b : Vertex) : Bool :=
  vec3Eq a.pos b.pos && vec3Eq a.color b.color

/-- Embedding of `impl Hash for Vertex` in `src/model.rs`: the
implementation feeds the `to_bits()` patterns of all nine components
(position, color and normal) to the hasher, in order.  Two vertices
produce the same hash for every deterministic hasher exactly when
they feed the same word sequence, so the fed sequence stands in for
the hash. -/
def Vertex.hashStream (v : Vertex) : List Nat :=
  [v.pos.x, v.pos.y, v.pos.z,
   v.color.x, v.color.y, v.color.z,
   v.normal.x, v.normal.y, v.normal.z]

/-! Staged buffer uploads. -/

/-- Arguments of one `create_buffer` call in `src/utils.rs`: byte
size, buffer usage flags and requested memory property flags. -/
structure BufferCreation where
  size : Nat
  usage : Nat
  properties : Nat
  deriving DecidableEq, Repr

/-- The sequence of operations performed by a staged upload in
`src/utils.rs`, in program order: create the staging buffer, map it
and copy `copied_elements` source elements into it and unmap, create
the destination buffer, record and submit a one-time command buffer
copying `copy_size` bytes from staging to destination
(`copy_buffer`, which blocks on queue idle), then destroy the
staging buffer and free its memory. -/
structure StagedUpload where
  staging : BufferCreation
  copied_elements : Nat
  destination : BufferCreation
  copy_size : Nat
  staging_destroyed_and_freed : Bool
  deriving DecidableEq, Repr

/-- Byte size of the Rust `Vertex` struct: nine f32 fields, `repr(C)`. -/
def size_of_Vertex : Nat := 36

/-- Byte size of a Rust `u32`. -/
def size_of_u32 : Nat := 4

/-- Embedding of `create_vertex_buffer` from `src/utils.rs`, applied
to a vertex array of the given length.  Note the destination buffer
is created with HOST_COHERENT | HOST_VISIBLE memory properties in the
source, not DEVICE_LOCAL. -/
def create_vertex_buffer (vertex_count : Nat) : StagedUpload :=
  let size := size_of_Vertex * vertex_count
  { staging :=
      { size := size
        usage := TRANSFER_SRC
        properties := HOST_COHERENT ||| HOST_VISIBLE }
    copied_elements := vertex_count
    destination :=
      { size := size
        usage := VERTEX_BUFFER ||| TRANSFER_DST
        properties := HOST_COHERENT ||| HOST_VISIBLE }
    copy_size := size
    staging_destroyed_and_freed := true }

/-- Embedding of `create_index_buffer` from `src/utils.rs`, applied
to an index array of the given length. -/
def create_index_buffer (index_count : Nat) : StagedUpload :=
  let size := size_of_u32 * index_count
  { staging :=
      { size := size
        usage := TRANSFER_SRC
        properties := HOST_COHERENT ||| HOST_VISIBLE }
    copied_elements := index_count
    destination :=
      { size := size
        usage := TRANSFER_DST ||| INDEX_BUFFER
        properties := DEVICE_LOCAL }
    copy_size := size
    staging_destroyed_and_freed := true }

/-! The frame loop of `App::render` in `src/app.rs`. -/

/-- Number of frames in flight, from `src/config.rs`. -/
def MAX_FRAMES_IN_FLIGHT : Nat := 2

/-- Result of `acquire_next_image_khr` as matched by `App::render`:
success with an image index, the out-of-date error, or any other
error code. -/
inductive AcquireResult where
  | ok (image_index : Nat)
  | outOfDate
  | err
  deriving DecidableEq, Repr

/-- Result of `queue_present_khr` as matched by `App::render`:
success, the suboptimal success code, the out-of-date error, or any
other error code. -/
inductive PresentResult where
  | ok
  | suboptimal
  | outOfDate
  | err
  deriving DecidableEq, Repr

/-- The externally observable calls issued by one `App::render` tick,
in program order. -/
inductive RenderEvent where
  | acquireNextImage
  | waitInFlightFence
  | waitImageInFlightFence
  | updateUniform
  | resetFence
  | queueSubmit
  | queuePresent
  | recreateSwapchain
  deriving DecidableEq, Repr

/-- Result of one render tick: the trace of issued calls, the value
of `self.frame` when the tick returns, and whether the tick returned
an error. -/
structure RenderTick where
  trace : List RenderEvent
  frame_after : Nat
  errored : Bool
  deriving DecidableEq, Repr

/-- Embedding of `App::render` from `src/app.rs` as a trace-producing
function of the current frame slot, the acquire result, whether the
per-image fence table holds a non-null fence for the acquired image,
and the present result.  The control flow mirrors the source: the
acquire call is issued first; on out-of-date it tail-calls
`recreate_swapchain` and returns (no frame advance); on another
acquire error it returns the error; otherwise it waits on the current
slot fence, optionally waits on the per-image fence, updates the
uniform buffer, resets the slot fence, submits, presents; a
suboptimal or out-of-date present runs `recreate_swapchain` and then
falls through to the frame advance, any other present error returns
before the advance, and a successful present advances the frame. -/
def render (frame : Nat) (acq : AcquireResult)
    (image_fence_pending : Bool) (pres : PresentResult) : RenderTick :=
  match acq with
  | AcquireResult.outOfDate =>
      { trace := [RenderEvent.acquireNextImage, RenderEvent.recreateSwapchain]
        frame_after := frame
        errored := false }
  | AcquireResult.err =>
      { trace := [RenderEvent.acquireNextImage]
        frame_after := frame
        errored := true }
  | AcquireResult.ok _ =>
      let submitted :=
        [RenderEvent.acquireNextImage, RenderEvent.waitInFlightFence]
          ++ (if image_fence_pending then [RenderEvent.waitImageInFlightFence] else [])
          ++ [RenderEvent.updateUniform, RenderEvent.resetFence,
              RenderEvent.queueSubmit, RenderEvent.queuePresent]
      match pres with
  | PresentResult.suboptimal =>
      { trace := submitted ++ [RenderEvent.recreateSwapchain]
        frame_after := (frame + 1) % MAX_FRAMES_IN_FLIGHT
        errored := false }
  | PresentResult.outOfDate =>
      { trace := submitted ++ [RenderEvent.recreateSwapchain]
        frame_after := (frame + 1) % MAX_FRAMES_IN_FLIGHT
        errored := false }
  | PresentResult.err =>
      { trace := submitted
        frame_after := frame
        errored := true }
  | PresentResult.ok =>
      { trace := submitted
        frame_after := (frame + 1) % MAX_FRAMES_IN_FLIGHT
        errored := false }

/-! The fence-bounded frame synchronizer. -/

/-- CPU-visible synchronization state of the frame loop: the current
frame slot and, for each of the `MAX_FRAMES_IN_FLIGHT` per-slot
fences, whether it is signaled (`true`) or unsignaled (`false`).
`create_sync_objects` creates the fences in the signaled state. -/
structure SyncState where
  frame : Nat
  fences : Fin MAX_FRAMES_IN_FLIGHT → Bool

/-- The slot index used by the tick: `self.frame`, which the frame
advance keeps below `MAX_FRAMES_IN_FLIGHT`. -/
def SyncState.slot (s : SyncState) : Fin MAX_FRAMES_IN_FLIGHT :=
  ⟨s.frame % MAX_FRAMES_IN_FLIGHT, Nat.mod_lt _ (by decide)⟩

/-- Initial synchronizer state: frame slot 0, every per-slot fence
created signaled (`vk::FenceCreateFlags::SIGNALED`). -/
def initSyncState : SyncState :=
  { frame := 0, fences := fun _ => true }

/-- Transitions of the synchronizer.  `gpuComplete` is the GPU
asynchronously signaling the fence of a submitted frame.  A tick that
ends at acquire (out-of-date or error) leaves the fences untouched.
A tick that reaches submission first blocks on the slot fence
(`wait_for_fences`, so the step is enabled only when that fence is
signaled), then resets it and submits with it; the frame advances
unless the present call returned a hard error. -/
inductive SyncStep : SyncState → SyncState → Prop where
  | gpuComplete (s : SyncState) (i : Fin MAX_FRAMES_IN_FLIGHT) :
      SyncStep s { s with fences := Function.update s.fences i true }
  | tickEndsAtAcquire (s : SyncState) :
      SyncStep s s
  | tickSubmits (s : SyncState) (advance : Bool)
      (hsig : s.fences s.slot = true) :
      SyncStep s
        { frame := if advance then (s.frame + 1) % MAX_FRAMES_IN_FLIGHT else s.frame
          fences := Function.update s.fences s.slot false }

/-- States reachable from the initial synchronizer state by any
sequence of render ticks and GPU completions. -/
def SyncReachable (s : SyncState) : Prop :=
  Relation.ReflTransGen SyncStep initSyncState s

/-- Number of frame slots whose in-flight fence is unsignaled, that
is, frames submitted but not yet confirmed complete. -/
def unsignaledCount (s : SyncState) : Nat :=
  (Finset.univ.filter fun i => s.fences i = false).card

/-! Swapchain recreation and the per-image fence table. -/

/-- Fence handles in the per-image table; `fenceNull` embeds
`vk::Fence::null()`. -/
def fenceNull : Nat := 0

/-- Embedding of Rust `Vec::resize(new_len, value)`: truncate when
shrinking, extend with copies of `value` when growing. -/
def vecResize (l : List Nat) (new_len : Nat) (value : Nat) : List Nat :=
  if new_len ≤ l.length then l.take new_len
  else l ++ List.replicate (new_len - l.length) value

/-- The swapchain-dependent part of `AppData` touched by the final
step of `recreate_swapchain`: the swapchain image list and the
per-image fence-tracking table `images_in_flight`. -/
structure SwapchainData where
  swapchain_images : List Nat
  images_in_flight : List Nat
  deriving DecidableEq, Repr

/-- Embedding of `App::recreate_swapchain` from `src/app.rs`,
restricted to the fields of `SwapchainData`: the rebuilt swapchain
yields `new_images` (the teardown and rebuild of the other resources
do not touch the fence table), and the final step resizes
`images_in_flight` to the new image count, filling new entries with
the null fence. -/
def recreate_swapchain (d : SwapchainData) (new_images : List Nat) :
    SwapchainData :=
  let rebuilt := { d with swapchain_images := new_images }
  { rebuilt with
      images_in_flight :=
        vecResize rebuilt.images_in_flight rebuilt.swapchain_images.length fenceNull }

/-! Model loading (`load_model` in `src/model.rs`). -/

/-- One `tobj` mesh as consumed by `load_model`: flat f32 arrays of
positions and normals (bit patterns) and the mesh index array. -/
structure Mesh where
  positions : List Nat
  normals : List Nat
  indices : List Nat
  deriving DecidableEq, Repr

/-- Accumulator state of the `load_model` loop: the vertex and index
arrays of `AppData` and the `unique_vertices` hash map, held as the
association list of its entries in insertion order. -/
structure LoadState where
  vertices : List Vertex
  indices : List Nat
  unique_vertices : List (Vertex × Nat)
  deriving DecidableEq, Repr

/-- Lookup in the `unique_vertices` `HashMap<Vertex, usize>`: the map
locates the bucket through `Hash` (the stream of nine bit patterns)
and then compares candidates with `PartialEq::eq`, so an entry is
found when its key both hashes identically and compares equal.
Collisions between distinct hash streams are assumed absent. -/
def hashmapGet (m : List (Vertex × Nat)) (v : Vertex) : Option Nat :=
  (m.find? fun e => (e.1.hashStream == v.hashStream) && Vertex.rustEq e.1 v).map
    fun e => e.2

/-- The bit pattern of the f32 value 1.0, the color components
`glm::vec3(1.0, 1.0, 1.0)` assigns. -/
def oneBits : Nat := 1065353216

/-- One iteration of the inner loop of `load_model` for mesh entry
`index`: skip the entry when the normal offset runs past the normals
array (the explicit `continue` in the source); abort (`none`) when a
position read, or a normal read beyond the guarded first component,
runs past its array (unchecked indices in the source, which abort the
process); otherwise build the vertex and
either reuse the recorded index of an equal unique vertex or append
the vertex and record its position. -/
def load_model_step (mesh : Mesh) (st : LoadState) (index : Nat) :
    Option LoadState :=
  let pos_offset := 3 * index
  let normal_offset := 3 * index
  if normal_offset ≥ mesh.normals.length then some st
  else if pos_offset + 2 ≥ mesh.positions.length then none
  else if normal_offset + 2 ≥ mesh.normals.length then none
  else
    let vertex : Vertex :=
      { pos :=
          { x := mesh.positions.getD pos_offset 0
            y := mesh.positions.getD (pos_offset + 1) 0
            z := mesh.positions.getD (pos_offset + 2) 0 }
        color := { x := oneBits, y := oneBits, z := oneBits }
        normal :=
          { x := mesh.normals.getD normal_offset 0
            y := mesh.normals.getD (normal_offset + 1) 0
            z := mesh.normals.getD (normal_offset + 2) 0 } }
    match hashmapGet st.unique_vertices vertex with
    | some i =>
        some { st with indices := st.indices ++ [i] }
    | none =>
        let i := st.vertices.length
        some
          { vertices := st.vertices ++ [vertex]
            indices := st.indices ++ [i]
            unique_vertices := st.unique_vertices ++ [(vertex, i)] }

/-- The inner loop of `load_model` over the index array of one mesh. -/
def load_mesh (st : LoadState) (mesh : Mesh) : Option LoadState :=
  mesh.indices.foldlM (load_model_step mesh) st

/-- Embedding of `load_model` from `src/model.rs` over a list of
meshes: run the deduplicating loop over every mesh, then apply the
normalization pass.  The normalization divides each position by the
f32 range `max_val - min_val`; its floating-point arithmetic is left
abstract as the per-vertex map `g`, which touches vertex contents
only (it preserves the vertex count and never touches the index
array).  The result is the produced vertex and index arrays. -/
def load_model (g : Vertex → Vertex) (meshes : List Mesh) :
    Option (List Vertex × List Nat) :=
  (meshes.foldlM load_mesh
      { vertices := [], indices := [], unique_vertices := [] }).map
    fun st => (st.vertices.map g, st.indices)

/-! Predicates and values used by the theorem statements. -/

/-- Whether an Except result is a success. -/
def exceptIsOk {ε α : Type} : Except ε α → Bool
  | Except.ok _ => true
  | Except.error _ => false

/-- The three layout pairs handled by the transition table of
`transition_image_layout`. -/
def supportedTransition (old_layout new_layout : ImageLayout) : Bool :=
  (old_layout == ImageLayout.UNDEFINED
      && new_layout == ImageLayout.TRANSFER_DST_OPTIMAL)
    || (old_layout == ImageLayout.TRANSFER_DST_OPTIMAL
      && new_layout == ImageLayout.SHADER_READ_ONLY_OPTIMAL)
    || (old_layout == ImageLayout.UNDEFINED
      && new_layout == ImageLayout.DEPTH_STENCIL_ATTACHMENT_OPTIMAL)

/-- The barrier recorded for the undefined to depth-stencil-attachment
transition of a format with both depth and stencil components. -/
def dsBarrier : BarrierInfo :=
  { src_access_mask := 0
    dst_access_mask :=
      DEPTH_STENCIL_ATTACHMENT_READ ||| DEPTH_STENCIL_ATTACHMENT_WRITE
    src_stage_mask := TOP_OF_PIPE
    dst_stage_mask := EARLY_FRAGMENT_TESTS
    aspect_mask := ASPECT_DEPTH ||| ASPECT_STENCIL }

/-- Two vertices with identical position and color but different
normals: the source `PartialEq` deems them equal while the source
`Hash` feeds the hasher different word sequences for them. -/
def c4_v1 : Vertex :=
  { pos := { x := oneBits, y := 0, z := 0 }
    color := { x := oneBits, y := oneBits, z := oneBits }
    normal := { x := 0, y := 0, z := 0 } }

/-- Companion of `c4_v1`, differing only in the normal. -/
def c4_v2 : Vertex :=
  { pos := { x := oneBits, y := 0, z := 0 }
    color := { x := oneBits, y := oneBits, z := oneBits }
    normal := { x := oneBits, y := 0, z := 0 } }

/-- Well-formedness of the `load_model` accumulator: every emitted
index and every index recorded in the deduplication map refers to an
existing vertex. -/
def LoadWF (st : LoadState) : Prop :=
  (∀ i ∈ st.indices, i < st.vertices.length) ∧
  (∀ e ∈ st.unique_vertices, e.2 < st.vertices.length)

/-! Theorems. -/

/-- C1 (counterexample): on a successful tick the trace of
`App::render` begins with the acquire call, and the fence wait on the
current frame slot comes only second, so the frame loop does issue
the acquire call before the fence wait. -/
theorem c1_counterexample :
    (render 0 (AcquireResult.ok 0) false PresentResult.ok).trace =
      [RenderEvent.acquireNextImage, RenderEvent.waitInFlightFence,
       RenderEvent.updateUniform, RenderEvent.resetFence,
       RenderEvent.queueSubmit, RenderEvent.queuePresent] := by decide

/-- C1 (amended): on every render tick the frame loop issues the
swapchain acquire call first; when the acquire succeeds, it then
blocks on the fence owned by the current frame slot immediately
afterwards, before any further work of the tick. -/
theorem c1_acquire_before_fence_wait (frame : Nat) (acq : AcquireResult)
    (image_fence_pending : Bool) (pres : PresentResult) :
    (render frame acq image_fence_pending pres).trace.head? =
      some RenderEvent.acquireNextImage ∧
    (∀ image_index, acq = AcquireResult.ok image_index →
      (render frame acq image_fence_pending pres).trace.take 2 =
        [RenderEvent.acquireNextImage, RenderEvent.waitInFlightFence]) := by
  constructor
  · cases acq <;> cases pres <;> cases image_fence_pending <;> rfl
  · intro image_index h
    subst h
    cases pres <;> cases image_fence_pending <;> rfl

/-- C1 (witness): instantiation of the amended theorem on a concrete
successful tick. -/
theorem c1_acquire_before_fence_wait_witness :
    (render 0 (AcquireResult.ok 0) true PresentResult.suboptimal).trace.take 2 =
      [RenderEvent.acquireNextImage, RenderEvent.waitInFlightFence] :=
  (c1_acquire_before_fence_wait 0 (AcquireResult.ok 0) true
    PresentResult.suboptimal).2 0 rfl

/-- C2 (counterexample): a tick whose present call reports
out-of-date ends in swapchain recreation, yet the frame slot index is
still advanced from 0 to 1. -/
theorem c2_counterexample :
    (render 0 (AcquireResult.ok 0) false PresentResult.outOfDate).trace.getLast? =
      some RenderEvent.recreateSwapchain ∧
    (render 0 (AcquireResult.ok 0) false PresentResult.outOfDate).frame_after = 1 := by
  decide

/-- C2 (amended): the frame slot index is advanced as
(frame + 1) mod MAX_FRAMES_IN_FLIGHT after every tick in which the
acquire succeeded and the present call did not hard-fail — including
ticks whose present result triggered swapchain recreation; it is left
unchanged exactly when the acquire reported out-of-date (recreation
without advance) or when the acquire or the present hard-failed. -/
theorem c2_frame_advance (frame image_index : Nat)
    (image_fence_pending : Bool) (pres : PresentResult) :
    (render frame AcquireResult.outOfDate image_fence_pending pres).frame_after =
      frame ∧
    (render frame AcquireResult.err image_fence_pending pres).frame_after =
      frame ∧
    (render frame (AcquireResult.ok image_index) image_fence_pending
        PresentResult.err).frame_after = frame ∧
    (pres ≠ PresentResult.err →
      (render frame (AcquireResult.ok image_index) image_fence_pending
          pres).frame_after = (frame + 1) % MAX_FRAMES_IN_FLIGHT) := by
  refine ⟨rfl, rfl, rfl, ?_⟩
  intro h
  cases pres with
  | err => exact absurd rfl h
  | _ => rfl

/-- C2 (witness): instantiation of the amended theorem on a concrete
present-triggered-recreation tick. -/
theorem c2_frame_advance_witness :
    (render 1 (AcquireResult.ok 0) false PresentResult.outOfDate).frame_after =
      (1 + 1) % MAX_FRAMES_IN_FLIGHT :=
  (c2_frame_advance 1 0 false PresentResult.outOfDate).2.2.2 (by decide)

/-- C3 (counterexample): the destination buffer of the vertex-buffer
staged upload is created with host-coherent, host-visible memory, not
device-local memory as the claim states. -/
theorem c3_counterexample :
    (create_vertex_buffer 3).destination.properties =
      (HOST_COHERENT ||| HOST_VISIBLE) ∧
    containsFlags (create_vertex_buffer 3).destination.properties DEVICE_LOCAL =
      false := by decide

/-- C3 (amended): both staged uploads create a host-visible,
host-coherent staging buffer sized to the data with transfer-source
usage, copy the source array into it, create the destination buffer
with the target usage plus transfer-destination capability, copy
staging to destination, and destroy and free the staging buffer; the
index-buffer destination requests device-local memory, but the
vertex-buffer destination requests host-coherent, host-visible
memory instead. -/
theorem c3_staged_upload (vertex_count index_count : Nat) :
    containsFlags (create_vertex_buffer vertex_count).staging.properties
      (HOST_VISIBLE ||| HOST_COHERENT) = true ∧
    containsFlags (create_index_buffer index_count).staging.properties
      (HOST_VISIBLE ||| HOST_COHERENT) = true ∧
    (create_vertex_buffer vertex_count).staging.usage = TRANSFER_SRC ∧
    (create_index_buffer index_count).staging.usage = TRANSFER_SRC ∧
    (create_vertex_buffer vertex_count).staging.size =
      size_of_Vertex * vertex_count ∧
    (create_index_buffer index_count).staging.size =
      size_of_u32 * index_count ∧
    (create_vertex_buffer vertex_count).copied_elements = vertex_count ∧
    (create_index_buffer index_count).copied_elements = index_count ∧
    containsFlags (create_vertex_buffer vertex_count).destination.usage
      VERTEX_BUFFER = true ∧
    containsFlags (create_vertex_buffer vertex_count).destination.usage
      TRANSFER_DST = true ∧
    containsFlags (create_index_buffer index_count).destination.usage
      INDEX_BUFFER = true ∧
    containsFlags (create_index_buffer index_count).destination.usage
      TRANSFER_DST = true ∧
    (create_vertex_buffer vertex_count).destination.size =
      (create_vertex_buffer vertex_count).staging.size ∧
    (create_index_buffer index_count).destination.size =
      (create_index_buffer index_count).staging.size ∧
    (create_index_buffer index_count).destination.properties = DEVICE_LOCAL ∧
    (create_vertex_buffer vertex_count).destination.properties =
      (HOST_COHERENT ||| HOST_VISIBLE) ∧
    (create_vertex_buffer vertex_count).copy_size =
      (create_vertex_buffer vertex_count).staging.size ∧
    (create_index_buffer index_count).copy_size =
      (create_index_buffer index_count).staging.size ∧
    (create_vertex_buffer vertex_count).staging_destroyed_and_freed = true ∧
    (create_index_buffer index_count).staging_destroyed_and_freed = true := by
  exact ⟨(by decide :
      containsFlags (HOST_COHERENT ||| HOST_VISIBLE) (HOST_VISIBLE ||| HOST_COHERENT) = true),
    (by decide :
      containsFlags (HOST_COHERENT ||| HOST_VISIBLE) (HOST_VISIBLE ||| HOST_COHERENT) = true),
    rfl, rfl, rfl, rfl, rfl, rfl,
    (by decide :
      containsFlags (VERTEX_BUFFER ||| TRANSFER_DST) VERTEX_BUFFER = true),
    (by decide :
      containsFlags (VERTEX_BUFFER ||| TRANSFER_DST) TRANSFER_DST = true),
    (by decide :
      containsFlags (TRANSFER_DST ||| INDEX_BUFFER) INDEX_BUFFER = true),
    (by decide :
      containsFlags (TRANSFER_DST ||| INDEX_BUFFER) TRANSFER_DST = true),
    rfl, rfl, rfl, rfl, rfl, rfl, rfl, rfl⟩

/-- C4 (code bug): the `Vertex` values `c4_v1` and `c4_v2` differ
only in the normal field.  The source `PartialEq` implementation
compares position and color only and deems them equal, while the
source `Hash` implementation also feeds the normal components to the
hasher, so the two equal keys hash differently.  This violates both
halves of the claim, and it breaks the `Eq`/`Hash` contract that the
`HashMap<Vertex, usize>` in `load_model` relies on; the spec (equality
and hashing defined over the numeric fields) is clearly the intent
and the `PartialEq` implementation omitting the normal is the slip. -/
theorem c4_eq_hash_mismatch :
    Vertex.rustEq c4_v1 c4_v2 = true ∧
    vec3Eq c4_v1.normal c4_v2.normal = false ∧
    Vertex.hashStream c4_v1 ≠ Vertex.hashStream c4_v2 := by decide

/-- C8 (counterexample): D16_UNORM_S8_UINT includes a stencil
component, yet the barrier recorded for its undefined to
depth-stencil-attachment transition carries the color aspect mask,
not depth plus stencil, so the aspect mask is not depth plus stencil
for every format that includes a stencil component. -/
theorem c8_counterexample :
    hasStencilComponent Format.D16_UNORM_S8_UINT = true ∧
    transition_image_layout Format.D16_UNORM_S8_UINT ImageLayout.UNDEFINED
        ImageLayout.DEPTH_STENCIL_ATTACHMENT_OPTIMAL =
      Except.ok
        { src_access_mask := 0
          dst_access_mask :=
            DEPTH_STENCIL_ATTACHMENT_READ ||| DEPTH_STENCIL_ATTACHMENT_WRITE
          src_stage_mask := TOP_OF_PIPE
          dst_stage_mask := EARLY_FRAGMENT_TESTS
          aspect_mask := ASPECT_COLOR } ∧
    ASPECT_COLOR ≠ (ASPECT_DEPTH ||| ASPECT_STENCIL) :=
  ⟨rfl, rfl, by decide⟩

/-- C8 (amended): the transition protocol succeeds exactly for the
three pairs undefined to transfer-destination, transfer-destination
to shader-read-only, and undefined to depth-stencil-attachment; every
other pair yields the fatal unsupported-transition error (returned
before any barrier is recorded), and when transitioning into the
depth-stencil-attachment layout the aspect mask is depth plus stencil
exactly for the formats D32_SFLOAT_S8_UINT and D24_UNORM_S8_UINT (the
stencil-bearing formats among the depth-format candidates of this
renderer), otherwise color. -/
theorem c8_transition_table (format : Format)
    (old_layout new_layout : ImageLayout) :
    (exceptIsOk (transition_image_layout format old_layout new_layout) =
      supportedTransition old_layout new_layout) ∧
    (supportedTransition old_layout new_layout = false →
      transition_image_layout format old_layout new_layout =
        Except.error "Unsupported image layout transition!") ∧
    (∀ b, transition_image_layout format old_layout new_layout = Except.ok b →
      b.aspect_mask =
        if new_layout = ImageLayout.DEPTH_STENCIL_ATTACHMENT_OPTIMAL ∧
            (format = Format.D32_SFLOAT_S8_UINT ∨
              format = Format.D24_UNORM_S8_UINT)
        then ASPECT_DEPTH ||| ASPECT_STENCIL
        else ASPECT_COLOR) := by
  refine ⟨?_, ?_, ?_⟩
  · cases old_layout <;> cases new_layout <;> rfl
  · intro h
    cases old_layout <;> cases new_layout <;>
      first
        | rfl
        | exact absurd h (by decide)
  · intro b hb
    cases old_layout <;> cases new_layout <;>
      first
        | exact Except.noConfusion hb
        | (cases hb; cases format <;> decide)

/-- C8 (witness): instantiation of the amended theorem on a concrete
unsupported pair and on the recorded depth-stencil barrier of a
stencil-bearing candidate format. -/
theorem c8_transition_table_witness :
    transition_image_layout Format.B8G8R8A8_SRGB ImageLayout.GENERAL
        ImageLayout.TRANSFER_DST_OPTIMAL =
      Except.error "Unsupported image layout transition!" ∧
    dsBarrier.aspect_mask =
      (if ImageLayout.DEPTH_STENCIL_ATTACHMENT_OPTIMAL =
            ImageLayout.DEPTH_STENCIL_ATTACHMENT_OPTIMAL ∧
          (Format.D32_SFLOAT_S8_UINT = Format.D32_SFLOAT_S8_UINT ∨
            Format.D32_SFLOAT_S8_UINT = Format.D24_UNORM_S8_UINT)
       then ASPECT_DEPTH ||| ASPECT_STENCIL
       else ASPECT_COLOR) :=
  ⟨(c8_transition_table Format.B8G8R8A8_SRGB ImageLayout.GENERAL
      ImageLayout.TRANSFER_DST_OPTIMAL).2.1 rfl,
   (c8_transition_table Format.D32_SFLOAT_S8_UINT ImageLayout.UNDEFINED
      ImageLayout.DEPTH_STENCIL_ATTACHMENT_OPTIMAL).2.2 dsBarrier rfl⟩

/-- Helper: the search predicate of `get_swapchain_surface_format`
holds exactly for the preferred format/color-space pair. -/
theorem surfaceFormatPred_iff (x : SurfaceFormatKHR) :
    ((x.format == Format.B8G8R8A8_SRGB
        && x.color_space == ColorSpaceKHR.SRGB_NONLINEAR) = true) ↔
      x = preferredSurfaceFormat := by
  cases x with
  | mk f c =>
    simp [preferredSurfaceFormat, SurfaceFormatKHR.mk.injEq, Bool.and_eq_true]

/-- C9: surface-format selection returns the B8G8R8A8_SRGB /
SRGB_NONLINEAR pair whenever the candidate list contains it,
regardless of position, and returns the first entry of any non-empty
list that does not contain it. -/
theorem c9_surface_format_selection (formats : List SurfaceFormatKHR) :
    (preferredSurfaceFormat ∈ formats →
      get_swapchain_surface_format formats = some preferredSurfaceFormat) ∧
    (formats ≠ [] → preferredSurfaceFormat ∉ formats →
      get_swapchain_surface_format formats = formats.head?) := by
  constructor
  · intro hmem
    unfold get_swapchain_surface_format
    cases hfind : formats.find? fun fmt =>
        fmt.format == Format.B8G8R8A8_SRGB
          && fmt.color_space == ColorSpaceKHR.SRGB_NONLINEAR with
    | none =>
      exfalso
      exact List.find?_eq_none.mp hfind preferredSurfaceFormat hmem
        ((surfaceFormatPred_iff preferredSurfaceFormat).mpr rfl)
    | some y =>
      have hp := List.find?_some hfind
      have hy := (surfaceFormatPred_iff y).mp hp
      subst hy
      rfl
  · intro hne hnotmem
    unfold get_swapchain_surface_format
    have hnone : (formats.find? fun fmt =>
        fmt.format == Format.B8G8R8A8_SRGB
          && fmt.color_space == ColorSpaceKHR.SRGB_NONLINEAR) = none := by
      apply List.find?_eq_none.mpr
      intro x hx hpx
      exact hnotmem ((surfaceFormatPred_iff x).mp hpx ▸ hx)
    rw [hnone]

/-- C9 (witness): instantiation on a concrete list containing the
preferred pair in second position, and on a concrete list without it. -/
theorem c9_surface_format_selection_witness :
    get_swapchain_surface_format
      [{ format := Format.R8G8B8A8_UNORM,
         color_space := ColorSpaceKHR.SRGB_NONLINEAR },
       preferredSurfaceFormat] = some preferredSurfaceFormat ∧
    get_swapchain_surface_format
      [{ format := Format.B8G8R8A8_UNORM,
         color_space := ColorSpaceKHR.HDR10_ST2084 }] =
      some { format := Format.B8G8R8A8_UNORM,
             color_space := ColorSpaceKHR.HDR10_ST2084 } :=
  ⟨(c9_surface_format_selection
      [{ format := Format.R8G8B8A8_UNORM,
         color_space := ColorSpaceKHR.SRGB_NONLINEAR },
       preferredSurfaceFormat]).1 (by decide),
   (c9_surface_format_selection
      [{ format := Format.B8G8R8A8_UNORM,
         color_space := ColorSpaceKHR.HDR10_ST2084 }]).2 (by decide) (by decide)⟩

/-- Helper: `find?` over `range' s n` returns the least index in
`[s, s + n)` satisfying the predicate, when one exists and all
smaller indices in the interval fail it. -/
theorem find?_range'_eq_some (p : Nat → Bool) (n : Nat) :
    ∀ (s i : Nat), s ≤ i → i < s + n → p i = true →
      (∀ j, s ≤ j → j < i → p j = false) →
      (List.range' s n).find? p = some i := by
  induction n with
  | zero => intro s i h1 h2; omega
  | succ m ih =>
    intro s i h1 h2 hp hmin
    rw [List.range'_succ]
    by_cases hsi : s = i
    · subst hsi
      rw [List.find?_cons_of_pos _ hp]
    · have hlt : s < i := Nat.lt_of_le_of_ne h1 hsi
      have hps : p s = false := hmin s (Nat.le_refl s) hlt
      rw [List.find?_cons_of_neg _ (by simp [hps])]
      exact ih (s + 1) i hlt (by omega) hp fun j hj1 hj2 => hmin j (by omega) hj2

/-- C7: memory-type selection returns the lowest index whose bit is
set in the requirements bitmask and whose property flags contain the
requested ones, and fails (returns none) when the requirements
bitmask excludes every available memory type. -/
theorem c7_memory_type_selection (memory_types : List Nat)
    (properties memory_type_bits : Nat) :
    (∀ i, i < memory_types.length →
      (((memory_type_bits &&& (1 <<< i)) != 0)
          && containsFlags (memory_types.getD i 0) properties) = true →
      (∀ j, j < i →
        (((memory_type_bits &&& (1 <<< j)) != 0)
            && containsFlags (memory_types.getD j 0) properties) = false) →
      get_memory_type_index memory_types properties memory_type_bits = some i) ∧
    ((∀ i, i < memory_types.length → memory_type_bits &&& (1 <<< i) = 0) →
      get_memory_type_index memory_types properties memory_type_bits = none) := by
  constructor
  · intro i hi hp hmin
    unfold get_memory_type_index
    rw [List.range_eq_range']
    exact find?_range'_eq_some _ memory_types.length 0 i (Nat.zero_le i)
      (by omega) hp fun j _ hj => hmin j hj
  · intro hexcl
    unfold get_memory_type_index
    apply List.find?_eq_none.mpr
    intro i hi
    have hlen : i < memory_types.length := List.mem_range.mp hi
    simp [hexcl i hlen]

/-- C7 (witness): instantiation on three concrete memory types with
property masks 1, 3 and 7: requesting property bit 2 with
requirements bitmask 6 selects index 1 (the lowest admissible), and a
requirements bitmask of 0 excludes every type and fails. -/
theorem c7_memory_type_selection_witness :
    get_memory_type_index [1, 3, 7] 2 6 = some 1 ∧
    get_memory_type_index [1, 3, 7] 2 0 = none :=
  ⟨(c7_memory_type_selection [1, 3, 7] 2 6).1 1 (by decide) (by decide)
      (fun j hj => by interval_cases j; decide),
   (c7_memory_type_selection [1, 3, 7] 2 0).2
      (fun i _ => Nat.zero_and _)⟩

/-- C5: in every state reachable by any sequence of render ticks and
GPU completions, the number of frame slots whose in-flight fence is
unsignaled — frames submitted but not yet confirmed complete — never
exceeds MAX_FRAMES_IN_FLIGHT.  The bound is structural: there are
exactly MAX_FRAMES_IN_FLIGHT slot fences, and a tick can submit on a
slot only after its blocking `wait_for_fences` on that slot observed
the fence signaled (the `hsig` premise of `SyncStep.tickSubmits`),
so the CPU blocks rather than queuing further work. -/
theorem c5_frames_in_flight_bound (s : SyncState) (_hs : SyncReachable s) :
    unsignaledCount s ≤ MAX_FRAMES_IN_FLIGHT := by
  calc unsignaledCount s ≤ (Finset.univ (α := Fin MAX_FRAMES_IN_FLIGHT)).card :=
        Finset.card_filter_le _ _
    _ = MAX_FRAMES_IN_FLIGHT := by
        rw [Finset.card_univ, Fintype.card_fin]

/-- C5 (witness): instantiation at the initial state, which is
reachable by the empty tick sequence. -/
theorem c5_frames_in_flight_bound_witness :
    unsignaledCount initSyncState ≤ MAX_FRAMES_IN_FLIGHT :=
  c5_frames_in_flight_bound initSyncState Relation.ReflTransGen.refl

/-- Helper: resizing yields a list of exactly the requested length. -/
theorem vecResize_length (l : List Nat) (n v : Nat) :
    (vecResize l n v).length = n := by
  unfold vecResize
  split
  · rw [List.length_take]; omega
  · rw [List.length_append, List.length_replicate]; omega

/-- Helper: getD over a replicated list returns the replicated value
whenever the default equals it. -/
theorem getD_replicate_self (k j v : Nat) :
    (List.replicate k v).getD j v = v := by
  induction k generalizing j with
  | zero => rfl
  | succ m ih =>
    cases j with
    | zero => rfl
    | succ j0 => exact ih j0

/-- Helper: entries appended by a growing resize hold the fill value. -/
theorem vecResize_getD_new (l : List Nat) (n v i : Nat)
    (h1 : l.length ≤ i) (h2 : i < n) :
    (vecResize l n v).getD i v = v := by
  unfold vecResize
  split
  · omega
  · rw [List.getD_append_right _ _ _ _ h1]
    exact getD_replicate_self _ _ _

/-- C6: after every swapchain recreation the per-image fence table
has exactly one entry per swapchain image (it is resized to the new
image count as the final step of `recreate_swapchain`), and every
newly added entry holds the null fence sentinel. -/
theorem c6_fence_table_resize (d : SwapchainData) (new_images : List Nat) :
    (recreate_swapchain d new_images).images_in_flight.length =
      (recreate_swapchain d new_images).swapchain_images.length ∧
    (recreate_swapchain d new_images).swapchain_images = new_images ∧
    (∀ i, d.images_in_flight.length ≤ i → i < new_images.length →
      (recreate_swapchain d new_images).images_in_flight.getD i fenceNull =
        fenceNull) := by
  refine ⟨?_, rfl, ?_⟩
  · exact vecResize_length _ _ _
  · intro i h1 h2
    exact vecResize_getD_new _ _ _ _ h1 h2

/-- C6 (witness): instantiation on a concrete recreation from one
image with a recorded fence to four images. -/
theorem c6_fence_table_resize_witness :
    (recreate_swapchain { swapchain_images := [11], images_in_flight := [5] }
        [7, 8, 9, 10]).images_in_flight.length =
      (recreate_swapchain { swapchain_images := [11], images_in_flight := [5] }
        [7, 8, 9, 10]).swapchain_images.length ∧
    (recreate_swapchain { swapchain_images := [11], images_in_flight := [5] }
        [7, 8, 9, 10]).images_in_flight.getD 2 fenceNull = fenceNull :=
  ⟨(c6_fence_table_resize
      { swapchain_images := [11], images_in_flight := [5] } [7, 8, 9, 10]).1,
   (c6_fence_table_resize
      { swapchain_images := [11], images_in_flight := [5] } [7, 8, 9, 10]).2.2
      2 (by decide) (by decide)⟩

/-- Helper: a successful hash-map lookup returns the value of some
stored entry. -/
theorem hashmapGet_mem (m : List (Vertex × Nat)) (v : Vertex) (i : Nat)
    (h : hashmapGet m v = some i) : ∃ e ∈ m, e.2 = i := by
  unfold hashmapGet at h
  cases hfind : m.find? fun e =>
      (e.1.hashStream == v.hashStream) && Vertex.rustEq e.1 v with
  | none => rw [hfind] at h; exact Option.noConfusion h
  | some e =>
    rw [hfind] at h
    injection h with h
    exact ⟨e, List.mem_of_find?_eq_some hfind, h⟩

/-- Helper: one loop iteration of `load_model` preserves the index
well-formedness invariant. -/
theorem load_model_step_wf (mesh : Mesh) (st : LoadState) (index : Nat) :
    ∀ st', LoadWF st → load_model_step mesh st index = some st' → LoadWF st' := by
  intro st' hwf h
  unfold load_model_step at h
  dsimp only at h
  split at h
  · injection h with h; subst h; exact hwf
  · split at h
    · exact Option.noConfusion h
    · split at h
      · exact Option.noConfusion h
      · split at h
        · rename_i i heq
          injection h with h
          subst h
          obtain ⟨e, hem, hei⟩ := hashmapGet_mem _ _ _ heq
          refine ⟨?_, hwf.2⟩
          intro x hx
          rcases List.mem_append.mp hx with hx | hx
          · exact hwf.1 x hx
          · rw [List.mem_singleton.mp hx, ← hei]
            exact hwf.2 e hem
        · rename_i heq
          injection h with h
          subst h
          constructor
          · intro x hx
            simp only [List.length_append, List.length_cons, List.length_nil]
            rcases List.mem_append.mp hx with hx | hx
            · have := hwf.1 x hx; omega
            · rw [List.mem_singleton.mp hx]; omega
          · intro e he
            simp only [List.length_append, List.length_cons, List.length_nil]
            rcases List.mem_append.mp he with he | he
            · have := hwf.2 e he; omega
            · rw [List.mem_singleton.mp he]; simp

/-- Helper: folding the loop body over any index list preserves the
invariant. -/
theorem foldl_load_model_step_wf (mesh : Mesh) :
    ∀ (l : List Nat) (st st' : LoadState), LoadWF st →
      List.foldlM (load_model_step mesh) st l = some st' → LoadWF st' := by
  intro l
  induction l with
  | nil =>
    intro st st' hwf h
    injection h with h
    subst h
    exact hwf
  | cons a l0 ih =>
    intro st st' hwf h
    rw [List.foldlM_cons] at h
    cases hstep : load_model_step mesh st a with
    | none => rw [hstep] at h; exact Option.noConfusion h
    | some st1 =>
      rw [hstep] at h
      exact ih st1 st' (load_model_step_wf mesh st a st1 hwf hstep) h

/-- Helper: processing any list of meshes preserves the invariant. -/
theorem foldl_load_mesh_wf :
    ∀ (meshes : List Mesh) (st st' : LoadState), LoadWF st →
      List.foldlM load_mesh st meshes = some st' → LoadWF st' := by
  intro meshes
  induction meshes with
  | nil =>
    intro st st' hwf h
    injection h with h
    subst h
    exact hwf
  | cons m ms ih =>
    intro st st' hwf h
    rw [List.foldlM_cons] at h
    cases hstep : load_mesh st m with
    | none => rw [hstep] at h; exact Option.noConfusion h
    | some st1 =>
      rw [hstep] at h
      exact ih st1 st'
        (foldl_load_model_step_wf m m.indices st st1 hwf hstep) h

/-- C10: whenever model loading completes successfully, every value
in the produced index array refers to an existing vertex of the
produced vertex array. -/
theorem c10_indices_in_bounds (g : Vertex → Vertex) (meshes : List Mesh)
    (vertices : List Vertex) (indices : List Nat)
    (h : load_model g meshes = some (vertices, indices)) :
    ∀ i ∈ indices, i < vertices.length := by
  unfold load_model at h
  cases hfold : List.foldlM load_mesh
      { vertices := [], indices := [], unique_vertices := [] } meshes with
  | none => rw [hfold] at h; exact Option.noConfusion h
  | some st =>
    rw [hfold] at h
    injection h with h
    have hwf := foldl_load_mesh_wf meshes _ st
      ⟨fun i hi => absurd hi (List.not_mem_nil i),
       fun e he => absurd he (List.not_mem_nil e)⟩ hfold
    have h1 : st.vertices.map g = vertices := congrArg Prod.fst h
    have h2 : st.indices = indices := congrArg Prod.snd h
    subst h1
    subst h2
    intro i hi
    rw [List.length_map]
    exact hwf.1 i hi

/-- C10 (witness): instantiation on a one-mesh model with a repeated
index, whose loading succeeds and emits index 0 into a one-vertex
array. -/
theorem c10_indices_in_bounds_witness :
    (0 : Nat) <
      ([{ pos := { x := 1, y := 2, z := 3 }
          color := { x := oneBits, y := oneBits, z := oneBits }
          normal := { x := 4, y := 5, z := 6 } }] : List Vertex).length :=
  c10_indices_in_bounds id
    [{ positions := [1, 2, 3], normals := [4, 5, 6], indices := [0, 0] }]
    [{ pos := { x := 1, y := 2, z := 3 }
       color := { x := oneBits, y := oneBits, z := oneBits }
       normal := { x := 4, y := 5, z := 6 } }]
    [0, 0] (by decide) 0 (by decide)

end SphVulkan
